import Mathlib

/-!
Verification development for the x-ai-agent pipeline.

The Python sources are shallowly embedded: Python strings become `List Char`
(one element per code point, so every operation is structural recursion the
kernel can evaluate), SQLite tables become Lean lists of rows, and each call
to the external Text Service is represented by an `Except`-valued response
supplied by an oracle, so that the pure post-processing that the repository
performs on those responses can be analysed exactly.
-/

namespace XAgent

/-- Python strings modelled as lists of characters. -/
abbrev Str := List Char

/-- The characters Python's str.strip removes, restricted to the ASCII range
(space, tab, newline, carriage return, vertical tab, form feed); the
repository only ever strips Text Service output, which is in this range. -/
def isPyWhitespace (c : Char) : Bool :=
  c = ' ' || c = '\t' || c = '\n' || c = '\r' || c = '\x0b' || c = '\x0c'

/-- Models Python's str.strip(): remove leading and trailing whitespace. -/
def pyStrip (s : Str) : Str :=
  ((s.dropWhile isPyWhitespace).reverse.dropWhile isPyWhitespace).reverse

/-- Models Python's str.split with a comma separator: every comma splits,
empty pieces are kept, and the empty string yields one empty piece. -/
def splitComma : Str → List Str
  | [] => [[]]
  | c :: rest =>
    match splitComma rest with
    | [] => [[c]]
    | piece :: pieces =>
      if c = ',' then [] :: piece :: pieces else (c :: piece) :: pieces

/-- Whether the first list is an initial segment of the second. -/
def isLeadingSub : Str → Str → Bool
  | [], _ => true
  | _ :: _, [] => false
  | a :: as, b :: bs => a = b && isLeadingSub as bs

/-- Whether needle occurs as a contiguous substring of the second argument
(models SQL LIKE with wildcards on both sides, and Python's in operator). -/
def containsSub (needle : Str) : Str → Bool
  | [] => needle.isEmpty
  | c :: rest => isLeadingSub needle (c :: rest) || containsSub needle rest

/-- Models SQLite's lower() (ASCII-only case folding). -/
def lowerStr (s : Str) : Str := s.map Char.toLower

/-- Models Python's str.upper restricted to ASCII. -/
def upperStr (s : Str) : Str := s.map Char.toUpper

/-- Models Python's str.replace(c, "") for a one-character pattern:
every occurrence of the character is removed. -/
def removeChar (c : Char) (s : Str) : Str := s.filter (fun a => !(a = c))

/-- Accumulator for decimal digit runs. -/
def decDigitsAux : Str → Nat → Option Nat
  | [], acc => some acc
  | c :: rest, acc =>
    if c.isDigit then decDigitsAux rest (acc * 10 + (c.toNat - '0'.toNat))
    else none

/-- A non-empty run of decimal digits, as a number; none otherwise. -/
def decDigits? : Str → Option Nat
  | [] => none
  | s => decDigitsAux s 0

/-- Models Python's int() built-in applied to a string: surrounding whitespace
is ignored, then an optional sign followed by a non-empty digit run is
accepted; anything else raises ValueError, modelled as none. (Python 3 also
accepts underscores between digits; nothing below depends on that corner of
the grammar, only on whether parsing succeeds.) -/
def pyInt? (s : Str) : Option Int :=
  match pyStrip s with
  | [] => none
  | c :: rest =>
    if c = '-' then (decDigits? rest).map (fun n => -(n : Int))
    else if c = '+' then (decDigits? rest).map (fun n => (n : Int))
    else (decDigits? (c :: rest)).map (fun n => (n : Int))

/-- The outcome of one Text Service completion call: the response text, or the
message of the exception the client raised. -/
abbrev TextResult := Except Str Str

/-- summarize_tweet (tweet_analyzer.py): the stripped completion text; an
exception from the Text Service call is caught and yields the empty string. -/
def summarize_tweet (resp : TextResult) : Str :=
  match resp with
  | .ok content => pyStrip content
  | .error _ => []

/-- generate_embedding (tweet_analyzer.py): the embedding vector from the
service; an exception is caught and yields the empty vector. Components are
modelled as rationals, since the repository performs no arithmetic on them. -/
def generate_embedding (resp : Except Str (List Rat)) : List Rat :=
  match resp with
  | .ok v => v
  | .error _ => []

/-- generate_insight_score (tweet_analyzer.py): strip the completion text,
parse it with int(); on success clamp to the range 0 to 100 with
max(0, min(100, score)); a ValueError yields 50, and an exception from the
Text Service call itself is caught and also yields 50. -/
def generate_insight_score (resp : TextResult) : Int :=
  match resp with
  | .error _ => 50
  | .ok content =>
    match pyInt? (pyStrip content) with
    | some score => max 0 (min 100 score)
    | none => 50

/-- generate_topics (tweet_analyzer.py): strip the completion text; an empty
string yields no topics; otherwise split on commas, strip each piece, keep the
pieces that are non-empty and contain no space character, and keep at most the
first three; an exception from the call is caught and yields the empty list. -/
def generate_topics (resp : TextResult) : List Str :=
  match resp with
  | .error _ => []
  | .ok content =>
    let topics_str := pyStrip content
    if topics_str.isEmpty then []
    else
      ((splitComma topics_str).map pyStrip).filter
        (fun t => !t.isEmpty && !t.contains ' ') |>.take 3

/-- extract_tokens (tweet_analyzer.py): strip the completion text; an empty
string yields no entries; otherwise split on commas, strip and uppercase each
piece, and drop empty pieces; an exception is caught and yields the empty
list. -/
def extract_tokens (resp : TextResult) : List Str :=
  match resp with
  | .error _ => []
  | .ok content =>
    let tokens_str := pyStrip content
    if tokens_str.isEmpty then []
    else
      ((splitComma tokens_str).map (fun t => upperStr (pyStrip t))).filter
        (fun t => !t.isEmpty)

/-- A stored row of the tweets table (database.py), with the JSON-encoded
list fields held as decoded lists and timestamps as integers (SQLite compares
ISO datetime strings lexicographically, which on well-formed stamps is the
chronological order an integer models). -/
structure Tweet where
  tweet_id : Str
  content : Str
  author : Str
  timestamp : Int
  summary : Str
  embedding : List Rat
  hashtags : List Str
  mentions : List Str
  urls : List Str
  media_urls : List Str
  insight_score : Int
  topics : List Str
  tokens : List Str
deriving DecidableEq

/-- A stored row of the replies table (database.py). -/
structure Reply where
  original_tweet_id : Str
  reply_content : Str
  timestamp : Str
  status : Str
deriving DecidableEq

/-- The Record Store state: the tweets and replies tables, as row lists in
insertion order. -/
structure Store where
  tweets : List Tweet
  replies : List Reply
deriving DecidableEq

/-- get_tweet_by_id (database.py): point lookup on tweet_id. -/
def get_tweet_by_id (db : Store) (tweet_id : Str) : Option Tweet :=
  db.tweets.find? (fun t => t.tweet_id == tweet_id)

/-- save_tweet (database.py): INSERT OR IGNORE keyed on the tweets table's
UNIQUE tweet_id column — when a row with the same tweet_id already exists the
insert is a no-op, otherwise the row is appended. -/
def save_tweet (db : Store) (row : Tweet) : Store :=
  if db.tweets.any (fun t => t.tweet_id == row.tweet_id) then db
  else { db with tweets := db.tweets ++ [row] }

/-- save_reply (database.py): a plain INSERT into the replies table. -/
def save_reply (db : Store) (row : Reply) : Store :=
  { db with replies := db.replies ++ [row] }

/-- The author allow-list hard-coded in get_recent_unreplied_tweets
(database.py). -/
def importantAuthors : List Str :=
  ["elonmusk".data, "VitalikButerin".data, "SBF_FTX".data, "cz_binance".data]

/-- The interrogative keywords of the WHERE clause of
get_recent_unreplied_tweets (database.py), matched against lower(content). -/
def questionKeywords : List Str :=
  ["what".data, "how".data, "why".data, "when".data, "where".data,
   "who".data, "thoughts".data, "think".data, "agree".data]

/-- The question-likeness disjunct of the WHERE clause: the content contains
a question mark, or its lowercasing contains one of the keywords. -/
def isQuestionLike (content : Str) : Bool :=
  content.contains '?' ||
    questionKeywords.any (fun k => containsSub k (lowerStr content))

/-- Whether the replies table holds any row for the given tweet_id (the
LEFT JOIN ... WHERE r.id IS NULL test of get_recent_unreplied_tweets,
negated). -/
def hasReplyRow (db : Store) (tweet_id : Str) : Bool :=
  db.replies.any (fun r => r.original_tweet_id == tweet_id)

/-- The full WHERE clause of get_recent_unreplied_tweets (database.py): no
reply row of any status exists for the tweet, the tweet is newer than the
window cutoff, and the tweet is allow-list-authored or question-like. -/
def replyEligible (db : Store) (cutoff : Int) (t : Tweet) : Bool :=
  !hasReplyRow db t.tweet_id && decide (cutoff < t.timestamp) &&
    (importantAuthors.contains t.author || isQuestionLike t.content)

/-- The CASE expression of the ORDER BY of get_recent_unreplied_tweets:
tier 1 for allow-listed authors, tier 2 for content containing a question
mark, tier 3 otherwise. -/
def replyPriority (t : Tweet) : Nat :=
  if importantAuthors.contains t.author then 1
  else if t.content.contains '?' then 2
  else 3

/-- The ORDER BY of get_recent_unreplied_tweets: priority tier ascending,
ties broken by timestamp descending. -/
def replyOrder (a b : Tweet) : Prop :=
  replyPriority a < replyPriority b ∨
    (replyPriority a = replyPriority b ∧ b.timestamp ≤ a.timestamp)

instance : DecidableRel replyOrder := fun a b =>
  inferInstanceAs (Decidable (replyPriority a < replyPriority b ∨
    (replyPriority a = replyPriority b ∧ b.timestamp ≤ a.timestamp)))

instance : IsTotal Tweet replyOrder where
  total a b := by unfold replyOrder; omega

instance : IsTrans Tweet replyOrder where
  trans a b c hab hbc := by
    unfold replyOrder at hab hbc ⊢
    omega

/-- get_recent_unreplied_tweets (database.py): rows passing the WHERE clause,
in the ORDER BY order, truncated to the LIMIT. The sort is modelled with
insertion sort, which realises exactly the sortedness the SQL guarantees. -/
def get_recent_unreplied_tweets (db : Store) (limit : Nat) (cutoff : Int) :
    List Tweet :=
  (List.insertionSort replyOrder (db.tweets.filter (replyEligible db cutoff))).take limit

/-- has_replied_to_tweet (database.py): SELECT COUNT(*) over reply rows for
the tweet_id, compared with zero — a row of any status counts. -/
def has_replied_to_tweet (db : Store) (tweet_id : Str) : Bool :=
  decide (0 < (db.replies.filter (fun r => r.original_tweet_id == tweet_id)).length)

/-- The ORDER BY of get_most_insightful_recent_tweets: insight score
descending, ties broken by timestamp descending. -/
def insightOrder (a b : Tweet) : Prop :=
  b.insight_score < a.insight_score ∨
    (a.insight_score = b.insight_score ∧ b.timestamp ≤ a.timestamp)

instance : DecidableRel insightOrder := fun a b =>
  inferInstanceAs (Decidable (b.insight_score < a.insight_score ∨
    (a.insight_score = b.insight_score ∧ b.timestamp ≤ a.timestamp)))

/-- get_most_insightful_recent_tweets (database.py): tweets within the
one-day window ordered by insight score descending then timestamp
descending, truncated to the limit. -/
def get_most_insightful_recent_tweets (db : Store) (limit : Nat)
    (cutoff : Int) : List Tweet :=
  (List.insertionSort insightOrder
    (db.tweets.filter (fun t => decide (cutoff ≤ t.timestamp)))).take limit

/-- A raw scraped post, as extracted by the page-evaluation step of
fetch_and_learn_tweets (tweet_analyzer.py). -/
structure RawTweet where
  tweet_id : Str
  content : Str
  author : Str
  timestamp : Int
  hashtags : List Str
  mentions : List Str
  urls : List Str
  media_urls : List Str
deriving DecidableEq

/-- The five Text Service responses one enrichment pass would consume, one
per sub-derivation. -/
structure Oracle where
  summaryResp : TextResult
  embeddingResp : Except Str (List Rat)
  scoreResp : TextResult
  topicsResp : TextResult
  tokensResp : TextResult

/-- The tweets-table row that fetch_and_learn_tweets (tweet_analyzer.py)
assembles for a fresh raw post: the scraped fields plus the five enrichment
results. -/
def ingestRow (raw : RawTweet) (o : Oracle) : Tweet :=
  { tweet_id := raw.tweet_id
    content := raw.content
    author := raw.author
    timestamp := raw.timestamp
    summary := summarize_tweet o.summaryResp
    embedding := generate_embedding o.embeddingResp
    hashtags := raw.hashtags
    mentions := raw.mentions
    urls := raw.urls
    media_urls := raw.media_urls
    insight_score := generate_insight_score o.scoreResp
    topics := generate_topics o.topicsResp
    tokens := extract_tokens o.tokensResp }

/-- One iteration of the per-article loop of fetch_and_learn_tweets
(tweet_analyzer.py): skip when the extracted tweet_id is falsy (empty); skip
when get_tweet_by_id finds the id already stored; otherwise run all five
enrichment sub-derivations and save the row. The second component counts the
Text Service calls the iteration makes (one per sub-derivation, whether or
not the call succeeds). Note the guard inspects only tweet_id; the content
field is not checked. -/
def ingest (db : Store) (raw : RawTweet) (o : Oracle) : Store × Nat :=
  if raw.tweet_id.isEmpty then (db, 0)
  else if (get_tweet_by_id db raw.tweet_id).isSome then (db, 0)
  else (save_tweet db (ingestRow raw o), 5)

/-- The whole per-article loop of fetch_and_learn_tweets over a batch of raw
posts, each paired with the Text Service responses its enrichment would
receive; returns the final store and the total number of Text Service
calls. -/
def ingestBatch (db : Store) : List (RawTweet × Oracle) → Store × Nat
  | [] => (db, 0)
  | (raw, o) :: rest =>
    let step := ingest db raw o
    let restRes := ingestBatch step.1 rest
    (restRes.1, step.2 + restRes.2)

/-- The quote-stripping step of generate_reply (tweet_interactor.py): strip
the completion text, then delete every straight double-quote character
(code 34; the source repeats this replace three times, which collapses to
one removal) and every apostrophe character (code 39). -/
def replyClean (content : Str) : Str :=
  removeChar (Char.ofNat 39) (removeChar (Char.ofNat 34) (pyStrip content))

/-- generate_reply (tweet_interactor.py): clean the completion text with
replyClean, then hard-truncate text longer than 280 characters to its first
277 characters followed by "..."; an exception from the Text Service call is
caught and yields None. -/
def generate_reply (resp : TextResult) : Option Str :=
  match resp with
  | .error _ => none
  | .ok content =>
    let reply := replyClean content
    some (if 280 < reply.length then reply.take 277 ++ "...".data else reply)

/-- generate_summary_post (tweet_summarizer.py): the stripped completion
text, returned as is — no quote stripping and no length truncation; an
exception from the Text Service call is caught and yields the empty
string. -/
def generate_summary_post (resp : TextResult) : Str :=
  match resp with
  | .error _ => []
  | .ok content => pyStrip content

/-- The Record Store effect of reply_to_tweet (tweet_interactor.py): when
generate_reply yields nothing or an empty text the attempt is abandoned; when
the platform-posting interaction cannot be verified (postedOk false) nothing
is written; only the verified-success path saves a reply row, with status
"posted". -/
def reply_to_tweet (db : Store) (tweet : Tweet) (gen : TextResult)
    (postedOk : Bool) (now : Str) : Store × Bool :=
  match generate_reply gen with
  | none => (db, false)
  | some reply_content =>
    if reply_content.isEmpty then (db, false)
    else if postedOk then
      (save_reply db
        { original_tweet_id := tweet.tweet_id
          reply_content := reply_content
          timestamp := now
          status := "posted".data }, true)
    else (db, false)

/-- The Record Store effect of one iteration of reply_to_recent_tweets
(tweet_interactor.py): skip when has_replied_to_tweet already holds; skip
when the insight score is not above 50; skip when generate_reply yields
nothing or an empty text; when the platform interaction fails (uiOk false)
nothing is written; after a dispatched reply a row with status "sent" is
saved. -/
def reply_loop_step (db : Store) (tweet : Tweet) (gen : TextResult)
    (uiOk : Bool) (now : Str) : Store :=
  if has_replied_to_tweet db tweet.tweet_id then db
  else if tweet.insight_score ≤ 50 then db
  else
    match generate_reply gen with
    | none => db
    | some reply_text =>
      if reply_text.isEmpty then db
      else if uiOk then
        save_reply db
          { original_tweet_id := tweet.tweet_id
            reply_content := reply_text
            timestamp := now
            status := "sent".data }
      else db

/-- The Record Store effect of one iteration of TwitterAgent.reply_to_tweets
(main.py): the reply row is saved with status "posted". -/
def main_reply_step (db : Store) (tweet_id reply_content now : Str) : Store :=
  save_reply db
    { original_tweet_id := tweet_id
      reply_content := reply_content
      timestamp := now
      status := "posted".data }

/-- Topic well-formedness as the specification words it: a stored topic is a
non-empty lowercase single word with no whitespace. -/
def topicWellFormed (t : Str) : Prop :=
  t ≠ [] ∧ (∀ c ∈ t, ¬ c.isWhitespace = true) ∧ (∀ c ∈ t, ¬ c.isUpper = true)

instance (t : Str) : Decidable (topicWellFormed t) :=
  inferInstanceAs (Decidable (_ ∧ _ ∧ _))

/-- The reply statuses the specification admits. -/
def specReplyStatuses : List Str :=
  ["pending".data, "posted".data, "failed".data]

/-- Sample: the empty Record Store. -/
def emptyStore : Store := { tweets := [], replies := [] }

/-- Sample: a stored tweet that is neither allow-list-authored nor
question-like. -/
def plainTweet : Tweet :=
  { tweet_id := "p1".data, content := "hello".data, author := "bob".data,
    timestamp := 100, summary := [], embedding := [], hashtags := [],
    mentions := [], urls := [], media_urls := [], insight_score := 90,
    topics := [], tokens := [] }

/-- Sample: a stored question tweet with a high insight score. -/
def qTweet : Tweet :=
  { plainTweet with
      tweet_id := "p2".data
      content := "why though?".data
      timestamp := 50 }

/-- Sample: a 281-character text, exceeding the platform length ceiling. -/
def longText : Str := List.replicate 281 'a'

/-- Sample: a raw post with a well-formed id and content. -/
def okRaw : RawTweet :=
  { tweet_id := "t1".data, content := "gm, btc looks strong".data,
    author := "alice".data, timestamp := 10, hashtags := [], mentions := [],
    urls := [], media_urls := [] }

/-- Sample: a raw post with a non-empty id and empty content. -/
def emptyContentRaw : RawTweet :=
  { tweet_id := "t2".data, content := [], author := "alice".data,
    timestamp := 0, hashtags := [], mentions := [], urls := [],
    media_urls := [] }

/-- Sample: a raw post with an empty id. -/
def emptyIdRaw : RawTweet :=
  { tweet_id := [], content := "some text".data, author := "alice".data,
    timestamp := 0, hashtags := [], mentions := [], urls := [],
    media_urls := [] }

/-- Sample: Text Service responses where every sub-call succeeds. -/
def allOkOracle : Oracle :=
  { summaryResp := Except.ok "a short summary".data,
    embeddingResp := Except.ok [1],
    scoreResp := Except.ok "85".data,
    topicsResp := Except.ok "crypto".data,
    tokensResp := Except.ok "BTC".data }

/-- Sample: Text Service responses where every sub-call raises. -/
def failOracle : Oracle :=
  { summaryResp := Except.error "down".data,
    embeddingResp := Except.error "down".data,
    scoreResp := Except.error "down".data,
    topicsResp := Except.error "down".data,
    tokensResp := Except.error "down".data }

/-- Sample: a reply row with status posted, for plainTweet. -/
def postedReply : Reply :=
  { original_tweet_id := "p1".data, reply_content := "ok".data,
    timestamp := "t0".data, status := "posted".data }

/-- Sample: a reply row with status sent (a recorded but unverified
attempt), for qTweet. -/
def sentReply : Reply :=
  { original_tweet_id := "p2".data, reply_content := "r".data,
    timestamp := "t0".data, status := "sent".data }

/-- Sample: a store holding plainTweet and a posted reply to it. -/
def storePosted : Store := { tweets := [plainTweet], replies := [postedReply] }

/-- Sample: a store holding qTweet and a sent reply to it. -/
def storeSent : Store := { tweets := [qTweet], replies := [sentReply] }

/-- Sample: a store holding plainTweet and qTweet and no replies. -/
def storeQ : Store := { tweets := [plainTweet, qTweet], replies := [] }

/-- Sample: a reply row as main.py's reply loop writes it. -/
def mainReplyRow : Reply :=
  { original_tweet_id := "p1".data, reply_content := "hi".data,
    timestamp := "t1".data, status := "posted".data }

/-- A fresh ingest appends exactly the assembled row and makes five Text
Service calls. -/
theorem ingest_fresh {db : Store} {raw : RawTweet} (o : Oracle)
    (hid : raw.tweet_id ≠ [])
    (hfresh : get_tweet_by_id db raw.tweet_id = none) :
    ingest db raw o =
      ({ tweets := db.tweets ++ [ingestRow raw o], replies := db.replies }, 5) := by
  have hempty : raw.tweet_id.isEmpty = false := by
    cases h : raw.tweet_id with
    | nil => exact absurd h hid
    | cons a as => rfl
  have hnone : ∀ t ∈ db.tweets, ¬ (t.tweet_id == raw.tweet_id) = true := by
    rw [get_tweet_by_id, List.find?_eq_none] at hfresh
    exact hfresh
  have hany : (db.tweets.any fun t => t.tweet_id == (ingestRow raw o).tweet_id) = false := by
    rw [List.any_eq_false]
    intro t ht
    exact hnone t ht
  simp [ingest, hempty, hfresh, save_tweet, hany]

/-- Every row the unreplied-selection query returns is a stored row passing
the WHERE clause. -/
theorem mem_unreplied {db : Store} {limit : Nat} {cutoff : Int} {t : Tweet}
    (ht : t ∈ get_recent_unreplied_tweets db limit cutoff) :
    t ∈ db.tweets ∧ replyEligible db cutoff t = true := by
  rw [get_recent_unreplied_tweets] at ht
  have h1 := List.mem_of_mem_take ht
  rw [List.mem_insertionSort] at h1
  exact List.mem_filter.mp h1

/-- A reply row of any status for a tweet id removes that id from the
unreplied-selection query and makes has_replied_to_tweet report true. -/
theorem replyRow_blocks {db : Store} {pid : Str} {r : Reply}
    (hr : r ∈ db.replies) (hpid : r.original_tweet_id = pid) :
    (∀ limit cutoff t, t ∈ get_recent_unreplied_tweets db limit cutoff →
        t.tweet_id ≠ pid) ∧
    has_replied_to_tweet db pid = true := by
  have hrow : hasReplyRow db pid = true := by
    rw [hasReplyRow, List.any_eq_true]
    exact ⟨r, hr, by simp [hpid]⟩
  constructor
  · intro limit cutoff t ht heq
    have helig := (mem_unreplied ht).2
    rw [replyEligible, heq, hrow] at helig
    simp at helig
  · rw [has_replied_to_tweet, decide_eq_true_eq]
    have hmem : r ∈ db.replies.filter (fun x => x.original_tweet_id == pid) :=
      List.mem_filter.mpr ⟨hr, by simp [hpid]⟩
    exact List.length_pos.mpr (List.ne_nil_of_mem hmem)

/-- Claim C1: ingest is idempotent per post id — the first ingest of a fresh
id appends exactly one row holding the first-seen enrichment; ingesting the
same id again leaves the store unchanged (that one row survives, never
overwritten) and makes zero Text Service calls. -/
theorem C1_idempotent_ingest (db : Store) (raw : RawTweet) (o o2 : Oracle)
    (hid : raw.tweet_id ≠ [])
    (hfresh : get_tweet_by_id db raw.tweet_id = none) :
    (ingest db raw o).1.tweets = db.tweets ++ [ingestRow raw o] ∧
    (ingest (ingest db raw o).1 raw o2).1 = (ingest db raw o).1 ∧
    (ingest (ingest db raw o).1 raw o2).2 = 0 ∧
    (ingest db raw o).1.tweets.filter (fun t => t.tweet_id == raw.tweet_id) =
      [ingestRow raw o] := by
  have hstep := ingest_fresh o hid hfresh
  have hempty : raw.tweet_id.isEmpty = false := by
    cases h : raw.tweet_id with
    | nil => exact absurd h hid
    | cons a as => rfl
  have hnone : ∀ t ∈ db.tweets, ¬ (t.tweet_id == raw.tweet_id) = true := by
    rw [get_tweet_by_id, List.find?_eq_none] at hfresh
    exact hfresh
  have hrowid : ((ingestRow raw o).tweet_id == raw.tweet_id) = true := by
    simp [ingestRow]
  have hsome :
      (get_tweet_by_id (ingest db raw o).1 raw.tweet_id).isSome = true := by
    rw [get_tweet_by_id, List.find?_isSome]
    refine ⟨ingestRow raw o, ?_, hrowid⟩
    rw [hstep]
    exact List.mem_append_right _ (List.mem_singleton.mpr rfl)
  refine ⟨by rw [hstep], ?_, ?_, ?_⟩
  · rw [ingest, hempty]
    simp [hsome]
  · rw [ingest, hempty]
    simp [hsome]
  · rw [hstep]
    simp only [List.filter_append]
    rw [List.filter_eq_nil_iff.mpr hnone]
    simp [hrowid]

/-- Claim C1 witness. -/
theorem C1_idempotent_ingest_witness :
    (ingest emptyStore okRaw allOkOracle).1.tweets =
      emptyStore.tweets ++ [ingestRow okRaw allOkOracle] ∧
    (ingest (ingest emptyStore okRaw allOkOracle).1 okRaw failOracle).1 =
      (ingest emptyStore okRaw allOkOracle).1 ∧
    (ingest (ingest emptyStore okRaw allOkOracle).1 okRaw failOracle).2 = 0 ∧
    (ingest emptyStore okRaw allOkOracle).1.tweets.filter
        (fun t => t.tweet_id == okRaw.tweet_id) = [ingestRow okRaw allOkOracle] :=
  C1_idempotent_ingest emptyStore okRaw allOkOracle failOracle (by decide) (by decide)

/-- Claim C2: the insight score is always an integer in the range 0 to 100;
when the stripped response parses as an integer the score is that integer
clamped to the range, when it does not parse the score is exactly 50, and a
failed Text Service call also yields 50. -/
theorem C2_insight_score_clamped (resp : TextResult) :
    (0 ≤ generate_insight_score resp ∧ generate_insight_score resp ≤ 100) ∧
    (∀ s n, resp = Except.ok s → pyInt? (pyStrip s) = some n →
        generate_insight_score resp = max 0 (min 100 n)) ∧
    (∀ s, resp = Except.ok s → pyInt? (pyStrip s) = none →
        generate_insight_score resp = 50) ∧
    (∀ e, resp = Except.error e → generate_insight_score resp = 50) := by
  refine ⟨?_, ?_, ?_, ?_⟩
  · cases resp with
    | error e =>
      exact ⟨by norm_num [generate_insight_score], by norm_num [generate_insight_score]⟩
    | ok s =>
      cases h : pyInt? (pyStrip s) with
      | none =>
        have h50 : generate_insight_score (Except.ok s) = 50 := by
          rw [generate_insight_score, h]
        rw [h50]
        exact ⟨by norm_num, by norm_num⟩
      | some n =>
        have hcl : generate_insight_score (Except.ok s) = max 0 (min 100 n) := by
          rw [generate_insight_score, h]
        rw [hcl]
        exact ⟨le_max_left 0 _, max_le (by norm_num) (min_le_left 100 n)⟩
  · rintro s n rfl hparse
    rw [generate_insight_score, hparse]
  · rintro s rfl hparse
    rw [generate_insight_score, hparse]
  · rintro e rfl
    rfl

/-- Claim C2 witness. -/
theorem C2_insight_score_clamped_witness :
    generate_insight_score (Except.ok "banana".data) = 50 ∧
    generate_insight_score (Except.ok " 250 ".data) = 100 ∧
    generate_insight_score (Except.error "down".data) = 50 :=
  ⟨(C2_insight_score_clamped (Except.ok "banana".data)).2.2.1 "banana".data
      rfl (by decide),
   ((C2_insight_score_clamped (Except.ok " 250 ".data)).2.1 " 250 ".data 250
      rfl (by decide)).trans (by decide),
   (C2_insight_score_clamped (Except.error "down".data)).2.2.2 "down".data rfl⟩

/-- Claim C4: each enrichment sub-derivation catches its own Text Service
failure and substitutes the documented default (summary: empty string,
embedding: empty vector, insight score: 50, topics and tokens: empty list); a
failure in one sub-derivation changes only that field of the assembled row
and never prevents the ingest from inserting the row. -/
theorem C4_enrichment_failure_isolation (e : Str) (o : Oracle) (db : Store)
    (raw : RawTweet) (hid : raw.tweet_id ≠ [])
    (hfresh : get_tweet_by_id db raw.tweet_id = none) :
    (summarize_tweet (Except.error e) = [] ∧
     generate_embedding (Except.error e) = [] ∧
     generate_insight_score (Except.error e) = 50 ∧
     generate_topics (Except.error e) = [] ∧
     extract_tokens (Except.error e) = []) ∧
    (ingestRow raw { o with summaryResp := Except.error e } =
        { ingestRow raw o with summary := [] } ∧
     ingestRow raw { o with embeddingResp := Except.error e } =
        { ingestRow raw o with embedding := [] } ∧
     ingestRow raw { o with scoreResp := Except.error e } =
        { ingestRow raw o with insight_score := 50 } ∧
     ingestRow raw { o with topicsResp := Except.error e } =
        { ingestRow raw o with topics := [] } ∧
     ingestRow raw { o with tokensResp := Except.error e } =
        { ingestRow raw o with tokens := [] }) ∧
    (ingest db raw o).1.tweets = db.tweets ++ [ingestRow raw o] := by
  refine ⟨⟨rfl, rfl, rfl, rfl, rfl⟩, ⟨rfl, rfl, rfl, rfl, rfl⟩, ?_⟩
  rw [ingest_fresh o hid hfresh]

/-- Claim C4 witness. -/
theorem C4_enrichment_failure_isolation_witness :
    (ingest emptyStore okRaw failOracle).1.tweets =
      emptyStore.tweets ++ [ingestRow okRaw failOracle] :=
  (C4_enrichment_failure_isolation "down".data failOracle emptyStore okRaw
    (by decide) (by decide)).2.2

/-- Claim C7, counterexample: a raw post with a non-empty id and empty
content is not rejected — its ingest performs all five Text Service
enrichment calls and writes a row to the Record Store. -/
theorem C7_counterexample :
    emptyContentRaw.content = [] ∧
    (ingest emptyStore emptyContentRaw allOkOracle).2 = 5 ∧
    (ingest emptyStore emptyContentRaw allOkOracle).1.tweets.length = 1 := by
  refine ⟨rfl, by decide, by decide⟩

/-- Claim C7 as amended: ingest drops a raw post whose id is empty — no
enrichment call, no Record Store write, and the batch continues with the
remaining posts — while content emptiness is not checked: a fresh post with a
non-empty id is enriched (five Text Service calls) and stored whatever its
content, including empty content. -/
theorem C7_empty_id_dropped (db : Store) (raw : RawTweet) (o : Oracle)
    (batch : List (RawTweet × Oracle)) :
    (raw.tweet_id = [] → ingest db raw o = (db, 0)) ∧
    (raw.tweet_id = [] →
        ingestBatch db ((raw, o) :: batch) = ingestBatch db batch) ∧
    (raw.tweet_id ≠ [] → get_tweet_by_id db raw.tweet_id = none →
        (ingest db raw o).1.tweets = db.tweets ++ [ingestRow raw o] ∧
        (ingest db raw o).2 = 5) := by
  have hdrop : raw.tweet_id = [] → ingest db raw o = (db, 0) := by
    intro h
    rw [ingest, h]
    rfl
  refine ⟨hdrop, ?_, ?_⟩
  · intro h
    rw [ingestBatch, hdrop h]
    simp
  · intro hid hfresh
    rw [ingest_fresh o hid hfresh]
    exact ⟨rfl, rfl⟩

/-- Claim C7 witness. -/
theorem C7_empty_id_dropped_witness :
    ingest emptyStore emptyIdRaw allOkOracle = (emptyStore, 0) ∧
    ingestBatch emptyStore [(emptyIdRaw, allOkOracle)] =
      ingestBatch emptyStore [] :=
  ⟨(C7_empty_id_dropped emptyStore emptyIdRaw allOkOracle []).1 rfl,
   (C7_empty_id_dropped emptyStore emptyIdRaw allOkOracle []).2.1 rfl⟩

set_option maxRecDepth 4000 in
/-- Claim C3, counterexample: generate_summary_post applies no truncation —
a 281-character generated summary is returned unchanged, exceeding 280
characters. -/
theorem C3_counterexample :
    generate_summary_post (Except.ok longText) = longText ∧
    longText.length = 281 := by
  constructor
  · decide
  · decide

/-- Claim C3 as amended: the truncation law holds for generated replies only
— after quote stripping, a reply text longer than 280 characters is truncated
to exactly 280 characters (its first 277 characters followed by the
3-character ellipsis marker) and a text of at most 280 characters is returned
unchanged — while generate_summary_post returns the stripped summary text
as is, with no truncation at any length. -/
theorem C3_reply_truncation (content : Str) :
    ((replyClean content).length ≤ 280 →
        generate_reply (Except.ok content) = some (replyClean content)) ∧
    (280 < (replyClean content).length →
        generate_reply (Except.ok content) =
          some ((replyClean content).take 277 ++ "...".data) ∧
        ((replyClean content).take 277 ++ "...".data).length = 280) ∧
    (∀ s, generate_summary_post (Except.ok s) = pyStrip s) := by
  refine ⟨?_, ?_, fun s => rfl⟩
  · intro hle
    rw [generate_reply]
    have hnot : ¬ 280 < (replyClean content).length := not_lt.mpr hle
    simp [hnot]
  · intro hgt
    constructor
    · rw [generate_reply]
      simp [hgt]
    · rw [List.length_append, List.length_take]
      have h3 : ("...".data : Str).length = 3 := rfl
      rw [h3]
      omega

set_option maxRecDepth 4000 in
/-- Claim C3 witness. -/
theorem C3_reply_truncation_witness :
    (generate_reply (Except.ok "hey".data) = some (replyClean "hey".data)) ∧
    (generate_reply (Except.ok longText) =
        some ((replyClean longText).take 277 ++ "...".data) ∧
      ((replyClean longText).take 277 ++ "...".data).length = 280) :=
  ⟨(C3_reply_truncation "hey".data).1 (by decide),
   (C3_reply_truncation longText).2.1 (by decide)⟩

/-- Claim C6, counterexample: the topics filter does not enforce
lowercasing, and rejects only the space character rather than all whitespace
— the Text Service response "Crypto, a<TAB>b" yields the stored topics list
["Crypto", "a<TAB>b"], whose first element contains an uppercase letter and
whose second contains a tab. -/
theorem C6_counterexample :
    generate_topics (Except.ok "Crypto, a\tb".data) =
      ["Crypto".data, "a\tb".data] ∧
    ¬ (∀ t ∈ generate_topics (Except.ok "Crypto, a\tb".data),
        topicWellFormed t) := by
  constructor
  · decide
  · decide

/-- Claim C6 as amended: every topics list produced by enrichment contains at
most 3 topics, and every topic in it is non-empty and contains no space
character (multi-word and empty candidates are rejected before storage);
lowercasing and the absence of non-space whitespace are not enforced. -/
theorem C6_topics_at_most_three_no_space (resp : TextResult) :
    (generate_topics resp).length ≤ 3 ∧
    ∀ t ∈ generate_topics resp, t ≠ [] ∧ t.contains ' ' = false := by
  cases resp with
  | error e => exact ⟨by norm_num [generate_topics], by simp [generate_topics]⟩
  | ok content =>
    rw [generate_topics]
    by_cases hstr : (pyStrip content).isEmpty
    · simp [hstr]
    · simp only [hstr, Bool.false_eq_true, if_false]
      refine ⟨List.length_take_le 3 _, ?_⟩
      intro t ht
      have hmem := List.mem_of_mem_take ht
      have hp := (List.mem_filter.mp hmem).2
      rw [Bool.and_eq_true] at hp
      refine ⟨?_, ?_⟩
      · intro hnil
        rw [hnil] at hp
        exact absurd hp.1 (by decide)
      · cases h : t.contains ' ' with
        | false => rfl
        | true =>
          rw [h] at hp
          exact absurd hp.2 (by decide)

/-- Claim C6 witness. -/
theorem C6_topics_at_most_three_no_space_witness :
    (generate_topics (Except.ok "crypto, ai, nft, defi".data)).length ≤ 3 ∧
    ("crypto".data ≠ ([] : Str) ∧ ("crypto".data : Str).contains ' ' = false) :=
  ⟨(C6_topics_at_most_three_no_space (Except.ok "crypto, ai, nft, defi".data)).1,
   (C6_topics_at_most_three_no_space (Except.ok "crypto, ai, nft, defi".data)).2
      "crypto".data (by decide)⟩

/-- Claim C5: a post with an existing reply row of status posted is never
again returned by the unreplied-selection query, has_replied_to_tweet reports
true for it, and the reply loop's already-replied check makes its iteration a
no-op for that post — so no second reply action is dispatched for the post
id. -/
theorem C5_no_duplicate_reply (db : Store) (pid : Str) (r : Reply)
    (hr : r ∈ db.replies) (hpid : r.original_tweet_id = pid)
    (hst : r.status = "posted".data) :
    (∀ limit cutoff t, t ∈ get_recent_unreplied_tweets db limit cutoff →
        t.tweet_id ≠ pid) ∧
    has_replied_to_tweet db pid = true ∧
    (∀ tweet gen uiOk now, tweet.tweet_id = pid →
        reply_loop_step db tweet gen uiOk now = db) := by
  have hb := replyRow_blocks hr hpid
  refine ⟨hb.1, hb.2, ?_⟩
  intro tweet gen uiOk now hteq
  rw [reply_loop_step, hteq, hb.2]
  rfl

/-- Claim C5 witness. -/
theorem C5_no_duplicate_reply_witness :
    has_replied_to_tweet storePosted "p1".data = true ∧
    reply_loop_step storePosted plainTweet (Except.ok "x".data) true "t2".data =
      storePosted :=
  ⟨(C5_no_duplicate_reply storePosted "p1".data postedReply (by decide) rfl
      rfl).2.1,
   (C5_no_duplicate_reply storePosted "p1".data postedReply (by decide) rfl
      rfl).2.2 plainTweet (Except.ok "x".data) true "t2".data rfl⟩

/-- Claim C10: reply eligibility is decided by the existence of a reply row,
not by its status — any reply row for a post id, whatever its status, removes
that post from the unreplied-selection query and makes has_replied_to_tweet
report true. -/
theorem C10_any_status_reply_blocks (db : Store) (pid : Str) (r : Reply)
    (hr : r ∈ db.replies) (hpid : r.original_tweet_id = pid) :
    (∀ limit cutoff t, t ∈ get_recent_unreplied_tweets db limit cutoff →
        t.tweet_id ≠ pid) ∧
    has_replied_to_tweet db pid = true :=
  replyRow_blocks hr hpid

/-- Claim C10 witness: a recorded but unverified attempt (status sent)
permanently blocks the post from reply selection. -/
theorem C10_any_status_reply_blocks_witness :
    has_replied_to_tweet storeSent "p2".data = true :=
  (C10_any_status_reply_blocks storeSent "p2".data sentReply (by decide) rfl).2

/-- Claim C8, counterexample: a stored post that is neither allow-list
authored nor question-like is excluded from the unreplied-selection result
even though it has no reply, lies within the freshness window, and the limit
of 3 is not filled — the lowest tier the claim describes is not eligible at
all. -/
theorem C8_counterexample :
    hasReplyRow { tweets := [plainTweet], replies := [] } plainTweet.tweet_id
      = false ∧
    (0 : Int) < plainTweet.timestamp ∧
    importantAuthors.contains plainTweet.author = false ∧
    isQuestionLike plainTweet.content = false ∧
    get_recent_unreplied_tweets { tweets := [plainTweet], replies := [] } 3 0
      = [] := by
  refine ⟨by decide, by decide, by decide, by decide, by decide⟩

/-- Claim C8 as amended: the unreplied-selection query returns at most the
limit, returns only stored posts passing its WHERE clause — unreplied, within
the window, and allow-list-authored or question-like (containing a question
mark or an interrogative keyword) — orders its result in three tiers
(allow-list authors first regardless of score, then posts containing a
question mark, then the remaining keyword-matching posts) with ties broken by
timestamp descending, and when the qualifying posts do not fill the limit it
returns all of them; posts that are neither allow-list-authored nor
question-like are excluded entirely rather than ranked in a lowest tier. -/
theorem C8_author_priority_selection (db : Store) (limit : Nat) (cutoff : Int) :
    (get_recent_unreplied_tweets db limit cutoff).length ≤ limit ∧
    (∀ t ∈ get_recent_unreplied_tweets db limit cutoff,
        t ∈ db.tweets ∧ replyEligible db cutoff t = true) ∧
    List.Sorted replyOrder (get_recent_unreplied_tweets db limit cutoff) ∧
    ((db.tweets.filter (replyEligible db cutoff)).length ≤ limit →
        ∀ t ∈ db.tweets, replyEligible db cutoff t = true →
          t ∈ get_recent_unreplied_tweets db limit cutoff) := by
  refine ⟨?_, fun t ht => mem_unreplied ht, ?_, ?_⟩
  · exact List.length_take_le limit _
  · exact List.Pairwise.sublist (List.take_sublist limit _)
      (List.sorted_insertionSort replyOrder _)
  · intro hlen t htmem helig
    rw [get_recent_unreplied_tweets, List.take_of_length_le
      (by rw [List.length_insertionSort]; exact hlen)]
    exact (List.mem_insertionSort replyOrder).mpr
      (List.mem_filter.mpr ⟨htmem, helig⟩)

/-- Claim C8 witness. -/
theorem C8_author_priority_selection_witness :
    (get_recent_unreplied_tweets storeQ 2 0).length ≤ 2 ∧
    qTweet ∈ get_recent_unreplied_tweets storeQ 2 0 :=
  ⟨(C8_author_priority_selection storeQ 2 0).1,
   (C8_author_priority_selection storeQ 2 0).2.2.2 (by decide) qTweet
      (by decide) (by decide)⟩

/-- Claim C9, counterexample: the reply loop of reply_to_recent_tweets
records a dispatched reply with status sent, which is not one of the statuses
pending, posted, failed. -/
theorem C9_counterexample :
    (reply_loop_step emptyStore qTweet (Except.ok "nice".data) true "t".data).replies =
      [{ original_tweet_id := "p2".data, reply_content := "nice".data,
         timestamp := "t".data, status := "sent".data }] ∧
    ¬ ("sent".data ∈ specReplyStatuses) := by
  constructor
  · decide
  · decide

/-- Claim C9 as amended: every reply row written by the reply-writing code
paths has status posted (the verified single-reply path and main.py's reply
loop) or sent (the reply_to_recent_tweets loop); pending and failed are never
written, and sent is outside the specified status set. -/
theorem C9_reply_status_values (db : Store) (tweet : Tweet) (gen : TextResult)
    (ok : Bool) (now : Str) :
    (∀ r ∈ (reply_to_tweet db tweet gen ok now).1.replies,
        r ∈ db.replies ∨ r.status = "posted".data) ∧
    (∀ r ∈ (reply_loop_step db tweet gen ok now).replies,
        r ∈ db.replies ∨ r.status = "sent".data) ∧
    (∀ tid rc, ∀ r ∈ (main_reply_step db tid rc now).replies,
        r ∈ db.replies ∨ r.status = "posted".data) := by
  refine ⟨?_, ?_, ?_⟩
  · intro r hrm
    rw [reply_to_tweet] at hrm
    cases hg : generate_reply gen with
    | none =>
      rw [hg] at hrm
      exact Or.inl hrm
    | some reply_content =>
      rw [hg] at hrm
      by_cases he : reply_content.isEmpty
      · simp only [he, if_true] at hrm
        exact Or.inl hrm
      · simp only [he, Bool.false_eq_true, if_false] at hrm
        cases ok with
        | false => exact Or.inl hrm
        | true =>
          rw [if_pos rfl] at hrm
          rcases List.mem_append.mp hrm with h | h
          · exact Or.inl h
          · exact Or.inr (by rw [List.mem_singleton.mp h])
  · intro r hrm
    rw [reply_loop_step] at hrm
    by_cases h1 : has_replied_to_tweet db tweet.tweet_id
    · rw [if_pos h1] at hrm
      exact Or.inl hrm
    · rw [if_neg h1] at hrm
      by_cases h2 : tweet.insight_score ≤ 50
      · rw [if_pos h2] at hrm
        exact Or.inl hrm
      · rw [if_neg h2] at hrm
        cases hg : generate_reply gen with
        | none =>
          rw [hg] at hrm
          exact Or.inl hrm
        | some reply_text =>
          rw [hg] at hrm
          by_cases he : reply_text.isEmpty
          · simp only [he, if_true] at hrm
            exact Or.inl hrm
          · simp only [he, Bool.false_eq_true, if_false] at hrm
            cases ok with
            | false => exact Or.inl hrm
            | true =>
              rw [if_pos rfl] at hrm
              rcases List.mem_append.mp hrm with h | h
              · exact Or.inl h
              · exact Or.inr (by rw [List.mem_singleton.mp h])
  · intro tid rc r hrm
    rw [main_reply_step, save_reply] at hrm
    rcases List.mem_append.mp hrm with h | h
    · exact Or.inl h
    · exact Or.inr (by rw [List.mem_singleton.mp h])

/-- Claim C9 witness. -/
theorem C9_reply_status_values_witness :
    mainReplyRow ∈ emptyStore.replies ∨ mainReplyRow.status = "posted".data :=
  (C9_reply_status_values emptyStore plainTweet (Except.ok "hi".data) true
      "t1".data).2.2 "p1".data "hi".data mainReplyRow (by decide)

end XAgent
